import Mathlib

/-!
Verification development for the semantic core of Bear's compilation-database
generator: the GNU-compiler flag classification pipeline of
`source/citnames/source/semantic/ToolGcc.cc`.

Paths are modelled as `String`, the C++ `std::list`/`std::vector` containers as
`List`, and `std::map` environments as association lists with first-match
lookup.  The flag-stream parser (`FlagParser`, `SourceMatcher`,
`EverythingElseFlagMatcher` of `Parsers.h`) is not part of the provided
sources, so it is modelled from the specification; everything else is a
direct translation of `ToolGcc.cc`.
-/

/-- Semantic category of a classified compiler flag, mirroring the
`CompilerFlagType` enumeration used by `ToolGcc.cc`. -/
inductive CompilerFlagType where
  | KIND_OF_OUTPUT
  | KIND_OF_OUTPUT_NO_LINKING
  | KIND_OF_OUTPUT_OUTPUT
  | KIND_OF_OUTPUT_INFO
  | PREPROCESSOR
  | PREPROCESSOR_MAKE
  | DIRECTORY_SEARCH
  | DIRECTORY_SEARCH_LINKER
  | LINKER
  | SOURCE
  | OTHER
deriving DecidableEq, Repr

/-- Modelled from the spec: the `Match` enumeration of the missing
`Parsers.h` — whether a dictionary key must equal the token exactly, be a
prefix of it, or either. -/
inductive MatchMode where
  | EXACT
  | PART
  | BOTH
deriving DecidableEq, Repr

/-- Modelled from the spec: one dictionary row — flag spelling, argument
arity (0 or 1), match mode, and the "argument must be glued to the spelling"
marker (`Instruction` of the missing `Parsers.h`), plus the semantic
category. -/
structure FlagDef where
  key : String
  arity : Nat
  mode : MatchMode
  glued : Bool
  type : CompilerFlagType
deriving Repr

/-- A classified flag: the consumed tokens, in original order, plus the
semantic category (`CompilerFlag` of `ToolGcc.cc`). -/
structure CompilerFlag where
  arguments : List String
  type : CompilerFlagType
deriving DecidableEq, Repr

/-- First quarter of the `FLAG_DEFINITION` table of `ToolGcc.cc` (split into
chunks only to keep elaboration cheap; `FLAG_DEFINITION` concatenates them in
the source's textual order). -/
def FLAG_DEFINITION_A : List FlagDef := [
  ⟨"-x",                 1, .EXACT, false, .KIND_OF_OUTPUT⟩,
  ⟨"-c",                 0, .EXACT, false, .KIND_OF_OUTPUT_NO_LINKING⟩,
  ⟨"-S",                 0, .EXACT, false, .KIND_OF_OUTPUT_NO_LINKING⟩,
  ⟨"-E",                 0, .EXACT, false, .KIND_OF_OUTPUT_NO_LINKING⟩,
  ⟨"-o",                 1, .EXACT, false, .KIND_OF_OUTPUT_OUTPUT⟩,
  ⟨"-dumpbase",          1, .EXACT, false, .KIND_OF_OUTPUT⟩,
  ⟨"-dumpbase-ext",      1, .EXACT, false, .KIND_OF_OUTPUT⟩,
  ⟨"-dumpdir",           1, .EXACT, false, .KIND_OF_OUTPUT⟩,
  ⟨"-v",                 0, .EXACT, false, .KIND_OF_OUTPUT⟩,
  ⟨"-###",               0, .EXACT, false, .KIND_OF_OUTPUT⟩,
  ⟨"--help",             0, .BOTH,  true,  .KIND_OF_OUTPUT_INFO⟩,
  ⟨"--target-help",      0, .EXACT, false, .KIND_OF_OUTPUT_INFO⟩,
  ⟨"--version",          0, .EXACT, false, .KIND_OF_OUTPUT_INFO⟩,
  ⟨"-pass-exit-codes",   0, .EXACT, false, .KIND_OF_OUTPUT⟩,
  ⟨"-pipe",              0, .EXACT, false, .KIND_OF_OUTPUT⟩,
  ⟨"-specs",             0, .PART,  true,  .KIND_OF_OUTPUT⟩,
  ⟨"-wrapper",           1, .EXACT, false, .KIND_OF_OUTPUT⟩,
  ⟨"-ffile-prefix-map",  0, .PART,  true,  .KIND_OF_OUTPUT⟩,
  ⟨"-fplugin",           0, .PART,  true,  .KIND_OF_OUTPUT⟩,
  ⟨"@",                  0, .PART,  false, .KIND_OF_OUTPUT⟩,
  ⟨"-A",                 1, .BOTH,  false, .PREPROCESSOR⟩,
  ⟨"-D",                 1, .BOTH,  false, .PREPROCESSOR⟩,
  ⟨"-U",                 1, .BOTH,  false, .PREPROCESSOR⟩,
  ⟨"-include",           1, .EXACT, false, .PREPROCESSOR⟩,
  ⟨"-imacros",           1, .EXACT, false, .PREPROCESSOR⟩,
  ⟨"-undef",             0, .EXACT, false, .PREPROCESSOR⟩,
  ⟨"-pthread",           0, .EXACT, false, .PREPROCESSOR⟩]

/-- Second quarter of the `FLAG_DEFINITION` table of `ToolGcc.cc`. -/
def FLAG_DEFINITION_B : List FlagDef := [
  ⟨"-M",                 0, .EXACT, false, .PREPROCESSOR_MAKE⟩,
  ⟨"-MM",                0, .EXACT, false, .PREPROCESSOR_MAKE⟩,
  ⟨"-MG",                0, .EXACT, false, .PREPROCESSOR_MAKE⟩,
  ⟨"-MP",                0, .EXACT, false, .PREPROCESSOR_MAKE⟩,
  ⟨"-MD",                0, .EXACT, false, .PREPROCESSOR_MAKE⟩,
  ⟨"-MMD",               0, .EXACT, false, .PREPROCESSOR_MAKE⟩,
  ⟨"-MF",                1, .EXACT, false, .PREPROCESSOR_MAKE⟩,
  ⟨"-MT",                1, .EXACT, false, .PREPROCESSOR_MAKE⟩,
  ⟨"-MQ",                1, .EXACT, false, .PREPROCESSOR_MAKE⟩,
  ⟨"-C",                 0, .EXACT, false, .PREPROCESSOR⟩,
  ⟨"-CC",                0, .EXACT, false, .PREPROCESSOR⟩,
  ⟨"-P",                 0, .EXACT, false, .PREPROCESSOR⟩,
  ⟨"-traditional",       0, .BOTH,  false, .PREPROCESSOR⟩,
  ⟨"-trigraphs",         0, .EXACT, false, .PREPROCESSOR⟩,
  ⟨"-remap",             0, .EXACT, false, .PREPROCESSOR⟩,
  ⟨"-H",                 0, .EXACT, false, .PREPROCESSOR⟩,
  ⟨"-Xpreprocessor",     1, .EXACT, false, .PREPROCESSOR⟩,
  ⟨"-Wp,",               0, .PART,  false, .PREPROCESSOR⟩,
  ⟨"-I",                 1, .BOTH,  false, .DIRECTORY_SEARCH⟩,
  ⟨"-iplugindir",        0, .PART,  true,  .DIRECTORY_SEARCH⟩,
  ⟨"-iquote",            1, .EXACT, false, .DIRECTORY_SEARCH⟩,
  ⟨"-isystem",           1, .EXACT, false, .DIRECTORY_SEARCH⟩,
  ⟨"-idirafter",         1, .EXACT, false, .DIRECTORY_SEARCH⟩,
  ⟨"-iprefix",           1, .EXACT, false, .DIRECTORY_SEARCH⟩,
  ⟨"-iwithprefix",       1, .EXACT, false, .DIRECTORY_SEARCH⟩,
  ⟨"-iwithprefixbefore", 1, .EXACT, false, .DIRECTORY_SEARCH⟩,
  ⟨"-isysroot",          1, .EXACT, false, .DIRECTORY_SEARCH⟩,
  ⟨"-imultilib",         1, .EXACT, false, .DIRECTORY_SEARCH⟩]

/-- Third quarter of the `FLAG_DEFINITION` table of `ToolGcc.cc`. -/
def FLAG_DEFINITION_C : List FlagDef := [
  ⟨"-L",                 1, .BOTH,  false, .DIRECTORY_SEARCH_LINKER⟩,
  ⟨"-B",                 1, .BOTH,  false, .DIRECTORY_SEARCH⟩,
  ⟨"--sysroot",          1, .BOTH,  true,  .DIRECTORY_SEARCH⟩,
  ⟨"-flinker-output",    0, .PART,  true,  .LINKER⟩,
  ⟨"-fuse-ld",           0, .PART,  true,  .LINKER⟩,
  ⟨"-l",                 1, .BOTH,  false, .LINKER⟩,
  ⟨"-nostartfiles",      0, .EXACT, false, .LINKER⟩,
  ⟨"-nodefaultlibs",     0, .EXACT, false, .LINKER⟩,
  ⟨"-nolibc",            0, .EXACT, false, .LINKER⟩,
  ⟨"-nostdlib",          0, .EXACT, false, .LINKER⟩,
  ⟨"-e",                 1, .EXACT, false, .LINKER⟩,
  ⟨"-entry",             0, .PART,  true,  .LINKER⟩,
  ⟨"-pie",               0, .EXACT, false, .LINKER⟩,
  ⟨"-no-pie",            0, .EXACT, false, .LINKER⟩,
  ⟨"-static-pie",        0, .EXACT, false, .LINKER⟩,
  ⟨"-r",                 0, .EXACT, false, .LINKER⟩,
  ⟨"-rdynamic",          0, .EXACT, false, .LINKER⟩,
  ⟨"-s",                 0, .EXACT, false, .LINKER⟩,
  ⟨"-symbolic",          0, .EXACT, false, .LINKER⟩,
  ⟨"-static",            0, .BOTH,  false, .LINKER⟩,
  ⟨"-shared",            0, .BOTH,  false, .LINKER⟩,
  ⟨"-T",                 1, .EXACT, false, .LINKER⟩,
  ⟨"-Xlinker",           1, .EXACT, false, .LINKER⟩,
  ⟨"-Wl,",               0, .PART,  false, .LINKER⟩]

/-- Fourth quarter of the `FLAG_DEFINITION` table of `ToolGcc.cc`. -/
def FLAG_DEFINITION_D : List FlagDef := [
  ⟨"-u",                 1, .EXACT, false, .LINKER⟩,
  ⟨"-z",                 1, .EXACT, false, .LINKER⟩,
  ⟨"-Xassembler",        1, .EXACT, false, .OTHER⟩,
  ⟨"-Wa,",               0, .PART,  false, .OTHER⟩,
  ⟨"-ansi",              0, .EXACT, false, .OTHER⟩,
  ⟨"-aux-info",          1, .EXACT, false, .OTHER⟩,
  ⟨"-std",               0, .PART,  true,  .OTHER⟩,
  ⟨"-O",                 0, .BOTH,  false, .OTHER⟩,
  ⟨"-g",                 0, .BOTH,  false, .OTHER⟩,
  ⟨"-f",                 0, .PART,  false, .OTHER⟩,
  ⟨"-m",                 0, .PART,  false, .OTHER⟩,
  ⟨"-p",                 0, .PART,  false, .OTHER⟩,
  ⟨"-W",                 0, .PART,  false, .OTHER⟩,
  ⟨"-no",                0, .PART,  false, .OTHER⟩,
  ⟨"-tno",               0, .PART,  false, .OTHER⟩,
  ⟨"-save",              0, .PART,  false, .OTHER⟩,
  ⟨"-d",                 0, .PART,  false, .OTHER⟩,
  ⟨"-E",                 0, .PART,  false, .OTHER⟩,
  ⟨"-Q",                 0, .PART,  false, .OTHER⟩,
  ⟨"-X",                 0, .PART,  false, .OTHER⟩,
  ⟨"-Y",                 0, .PART,  false, .OTHER⟩,
  ⟨"--",                 0, .PART,  false, .OTHER⟩]

/-- The `FLAG_DEFINITION` table of `ToolGcc.cc`, in the source's textual
order (which places specific spellings before the catch-all prefixes, as the
spec requires of the dictionary iteration order). -/
def FLAG_DEFINITION : List FlagDef :=
  FLAG_DEFINITION_A ++ FLAG_DEFINITION_B ++ FLAG_DEFINITION_C ++ FLAG_DEFINITION_D

/-- Boolean "the first list is a prefix of the second" on character lists
(kernel-evaluable replacement for the string primitive). -/
def isPre : List Char → List Char → Bool
  | [], _ => true
  | _ :: _, [] => false
  | a :: as, b :: bs => a == b && isPre as bs

/-- Modelled from the spec: whether a dictionary key matches the token —
exact mode requires token equality, partial mode requires the key to be a
prefix of the token, and "both" accepts either. -/
def flagKeyMatches (d : FlagDef) (t : String) : Bool :=
  match d.mode with
  | .EXACT => t == d.key
  | .PART => isPre d.key.data t.data
  | .BOTH => isPre d.key.data t.data

/-- Modelled from the spec: attempt to match one dictionary row against the
token `t` (with `rest` the tokens that follow).  Returns the classified flag
and whether one extra token was consumed as the flag's separate value:
arity-0 flags consume just the token, arity-1 flags take a glued value
(token strictly longer than the key) or, unless the glued form is mandatory,
the next token. -/
def matchEntry (d : FlagDef) (t : String) (rest : List String) :
    Option (CompilerFlag × Bool) :=
  if flagKeyMatches d t then
    if d.arity == 0 then some (⟨[t], d.type⟩, false)
    else if d.key.length < t.length then some (⟨[t], d.type⟩, false)
    else if d.glued then none
    else
      match rest with
      | v :: _ => some (⟨[t, v], d.type⟩, true)
      | [] => none
  else none

/-- Modelled from the spec: the `FlagParser` lookup — try the dictionary rows
in order, first match wins. -/
def tryDict (t : String) (rest : List String) : Option (CompilerFlag × Bool) :=
  FLAG_DEFINITION.findSome? (fun d => matchEntry d t rest)

/-- Modelled from the spec: the Flag Stream Parser of the missing
`Parsers.h` — repeatedly apply (flag matcher | source matcher) left to right
over the whole argument vector; a token that matches no dictionary row is
absorbed as a `SOURCE` flag. -/
def parseTokens : List String → List CompilerFlag
  | [] => []
  | t :: rest =>
    match tryDict t rest with
    | some (flag, b) =>
      if b then
        match rest with
        | [] => [flag]
        | _ :: rest2 => flag :: parseTokens rest2
      else flag :: parseTokens rest
    | none => ⟨[t], .SOURCE⟩ :: parseTokens rest

/-- The `NO_COMPILATION_FLAG` array of `runs_compilation_pass` in
`ToolGcc.cc`. -/
def NO_COMPILATION_FLAG : List String := ["-M", "-MM", "-E"]

/-- Function `runs_compilation_pass` of `ToolGcc.cc`: a flag sequence runs a
compilation pass unless it is empty, contains a help/version query, or
contains a `PREPROCESSOR_MAKE` flag whose first argument token is one of the
`NO_COMPILATION_FLAG` spellings (`arguments.front()` is modelled as
`headD ""`, the parser never produces empty argument lists). -/
def runs_compilation_pass (flags : List CompilerFlag) : Bool :=
  if flags.isEmpty then false
  else if flags.any (fun flag => flag.type == .KIND_OF_OUTPUT_INFO) then false
  else if flags.any (fun flag =>
      flag.type == .PREPROCESSOR_MAKE
        && NO_COMPILATION_FLAG.contains (flag.arguments.headD "")) then false
  else true

/-- Function `source_file` of `ToolGcc.cc`: a `SOURCE` flag's path is its first
argument token. -/
def source_file (flag : CompilerFlag) : Option String :=
  if flag.type == .SOURCE then some (flag.arguments.headD "") else none

/-- Function `source_files` of `ToolGcc.cc`: the paths of all `SOURCE` flags, in
order. -/
def source_files (flags : List CompilerFlag) : List String :=
  flags.filterMap source_file

/-- Function `output_file` of `ToolGcc.cc`: a `KIND_OF_OUTPUT_OUTPUT` flag's path is
its last argument token (`arguments.back()` modelled as `getLastD ""`). -/
def output_file (flag : CompilerFlag) : Option String :=
  if flag.type == .KIND_OF_OUTPUT_OUTPUT then some (flag.arguments.getLastD "") else none

/-- Function `output_files` of `ToolGcc.cc`: the path of the first
`KIND_OF_OUTPUT_OUTPUT` flag, if any. -/
def output_files (flags : List CompilerFlag) : Option String :=
  flags.findSome? output_file

/-- The `type_filter_out` predicate of `filter_arguments` in `ToolGcc.cc`. -/
def type_filter_out (type : CompilerFlagType) : Bool :=
  type == .LINKER || type == .PREPROCESSOR_MAKE || type == .DIRECTORY_SEARCH_LINKER

/-- The `source_filter` predicate of `filter_arguments` in `ToolGcc.cc`: keep
a flag unless it is a `SOURCE` flag for a different path. -/
def source_filter (source : String) (flag : CompilerFlag) : Bool :=
  match source_file flag with
  | none => true
  | some candidate => candidate == source

/-- Function `filter_arguments` of `ToolGcc.cc`: start from a synthetic `-c` when no
`KIND_OF_OUTPUT_NO_LINKING` flag is present, then walk the flags in order,
appending the argument tokens of every flag that survives both filters. -/
def filter_arguments (flags : List CompilerFlag) (source : String) : List String :=
  let no_linking := flags.any (fun flag => flag.type == .KIND_OF_OUTPUT_NO_LINKING)
  let init : List String := if no_linking then [] else ["-c"]
  flags.foldl
    (fun acc flag =>
      if !type_filter_out flag.type && source_filter source flag
      then acc ++ flag.arguments else acc)
    init

/-- Split a character list at every occurrence of `sep` (the colon-separated
path-list primitive assumed by the spec; `sys::path::split` in the source). -/
def splitCharsOn (sep : Char) : List Char → List (List Char)
  | [] => [[]]
  | c :: rest =>
    if c == sep then [] :: splitCharsOn sep rest
    else
      match splitCharsOn sep rest with
      | h :: t => (c :: h) :: t
      | [] => [[c]]

/-- Colon-splitting on strings. -/
def splitColon (s : String) : List String :=
  (splitCharsOn ':' s.data).map (fun l => String.mk l)

/-- First-match lookup in an association-list environment (models
`std::map::find`, whose keys are unique). -/
def envLookup (environment : List (String × String)) (key : String) : Option String :=
  (environment.find? (fun p => p.1 == key)).map (fun p => p.2)

/-- The `inserter` helper of `flags_from_environment` in `ToolGcc.cc`: one
`flag dir` pair per colon-separated segment, an empty segment standing for
the current directory `.`. -/
def envInserter (value : String) (flag : String) : List String :=
  (splitColon value).flatMap (fun path => [flag, if path == "" then "." else path])

/-- Function `flags_from_environment` of `ToolGcc.cc`: `-I` pairs for `CPATH`,
`C_INCLUDE_PATH` and `CPLUS_INCLUDE_PATH` in that order, then `-isystem`
pairs for `OBJC_INCLUDE_PATH`. -/
def flags_from_environment (environment : List (String × String)) : List String :=
  (["CPATH", "C_INCLUDE_PATH", "CPLUS_INCLUDE_PATH"].flatMap (fun env =>
    match envLookup environment env with
    | some value => envInserter value "-I"
    | none => [])) ++
  (match envLookup environment "OBJC_INCLUDE_PATH" with
   | some value => envInserter value "-isystem"
   | none => [])

/-- Predicate `fs::path::is_absolute` on the POSIX path model: the path begins with a
separator. -/
def isAbsolutePath (p : String) : Bool :=
  match p.data with
  | [] => false
  | c :: _ => c == '/'

/-- Joining with a working directory as `make_absolute` of `ToolGcc.cc` does:
an already-absolute path is kept, a relative one is appended to the
directory. -/
def joinPath (dir : String) (p : String) : String :=
  if isAbsolutePath p then p else dir ++ "/" ++ p

/-- Structure `cs::output::Entry`: one reconstructed single-source compiler
invocation. -/
structure Entry where
  file : String
  directory : String
  output : Option String
  arguments : List String
deriving DecidableEq, Repr

/-- Structure `report::Command`: the intercepted process invocation.  `arguments` holds
the compiler's flag tokens (the tokens the Flag Stream Parser reads). -/
structure Command where
  program : String
  arguments : List String
  working_dir : String
  environment : List (String × String)
deriving DecidableEq, Repr

/-- Function `make_absolute` of `ToolGcc.cc`: resolve the entry's file and output
against its directory. -/
def make_absolute (entry : Entry) : Entry :=
  { entry with
    file := joinPath entry.directory entry.file,
    output := entry.output.map (joinPath entry.directory) }

/-- Function `ToolGcc::compilations` of `ToolGcc.cc`: parse, gate on the
compilation-pass classifier, extract output and sources, and emit one
path-normalized Entry per source with the per-source filtered argument list
(program first, environment-synthesized flags last). -/
def ToolGcc.compilations (command : Command) : List Entry :=
  let flags := parseTokens command.arguments
  if !runs_compilation_pass flags then []
  else
    let output := output_files flags
    let sources := source_files flags
    if sources.isEmpty then []
    else
      sources.map (fun source =>
        let arguments :=
          (command.program :: filter_arguments flags source)
            ++ flags_from_environment command.environment
        make_absolute
          { file := source
            directory := command.working_dir
            output := output
            arguments := arguments })

/-- Regular expressions over characters, with character-class leaves, used to
embed the `std::regex` patterns of `match_executable_name`. -/
inductive Regex where
  | emp
  | eps
  | cls (p : Char → Bool)
  | cat (a b : Regex)
  | alt (a b : Regex)
  | star (a : Regex)

/-- Whether a regex accepts the empty word. -/
def Regex.nullable : Regex → Bool
  | .emp => false
  | .eps => true
  | .cls _ => false
  | .cat a b => a.nullable && b.nullable
  | .alt a b => a.nullable || b.nullable
  | .star _ => true

/-- Concatenation with the obvious absorbing/identity simplifications (keeps
derivative terms small). -/
def Regex.catS : Regex → Regex → Regex
  | .emp, _ => .emp
  | .eps, b => b
  | _, .emp => .emp
  | a, .eps => a
  | a, b => .cat a b

/-- Alternation with the empty-language identity simplifications. -/
def Regex.altS : Regex → Regex → Regex
  | .emp, b => b
  | a, .emp => a
  | a, b => .alt a b

/-- Brzozowski derivative by one character. -/
def Regex.deriv (c : Char) : Regex → Regex
  | .emp => .emp
  | .eps => .emp
  | .cls p => if p c then .eps else .emp
  | .cat a b =>
    if a.nullable then Regex.altS (Regex.catS (a.deriv c) b) (b.deriv c)
    else Regex.catS (a.deriv c) b
  | .alt a b => .alt (a.deriv c) (b.deriv c)
  | .star a => Regex.catS (a.deriv c) (.star a)

/-- Full (anchored) regex matching by iterated derivatives. -/
def Regex.rmatch (r : Regex) : List Char → Bool
  | [] => r.nullable
  | c :: s => (r.deriv c).rmatch s

/-- A single literal character. -/
def Regex.chr (c : Char) : Regex := .cls (fun d => d == c)

/-- A literal word. -/
def Regex.word : List Char → Regex
  | [] => .eps
  | c :: s => .cat (Regex.chr c) (Regex.word s)

/-- Regex `r?`. -/
def Regex.opt (r : Regex) : Regex := .alt .eps r

/-- Regex `r+`. -/
def Regex.plus (r : Regex) : Regex := .cat r (.star r)

/-- Regex `\d`. -/
def Regex.digit : Regex := .cls Char.isDigit

/-- Regex `[^-]`. -/
def Regex.nonHyphen : Regex := .cls (fun c => c != '-')

/-- Regex `([^-]*-)*` — any run of hyphen-terminated hyphen-free chunks. -/
def Regex.hyphenChunks : Regex := .star (.cat (.star Regex.nonHyphen) (Regex.chr '-'))

/-- Regex `(\.\d+){0,2}`. -/
def Regex.dotDigitsUpTo2 : Regex :=
  Regex.opt (.cat (.cat (Regex.chr '.') Regex.digit.plus)
    (Regex.opt (.cat (Regex.chr '.') Regex.digit.plus)))

/-- Regex `(-?\d+(\.\d+){0,2})?` — the version suffix as written in
`ToolGcc.cc` (`match_executable_name`), with the hyphen optional. -/
def Regex.versionSrc : Regex :=
  Regex.opt (.cat (.cat (Regex.opt (Regex.chr '-')) Regex.digit.plus) Regex.dotDigitsUpTo2)

/-- Regex `^(cc|c\+\+|cxx|CC)$` — first pattern of `match_executable_name`. -/
def Regex.gccPat1 : Regex :=
  .alt (Regex.word "cc".data)
    (.alt (Regex.word "c++".data) (.alt (Regex.word "cxx".data) (Regex.word "CC".data)))

/-- Regex `^([^-]*-)*[mg]cc(-?\d+(\.\d+){0,2})?$` — second pattern of
`match_executable_name`. -/
def Regex.gccPat2 : Regex :=
  .cat Regex.hyphenChunks
    (.cat (.cls (fun c => c == 'm' || c == 'g')) (.cat (Regex.word "cc".data) Regex.versionSrc))

/-- Regex `^([^-]*-)*[mg]\+\+(-?\d+(\.\d+){0,2})?$` — third pattern of
`match_executable_name`. -/
def Regex.gccPat3 : Regex :=
  .cat Regex.hyphenChunks
    (.cat (.cls (fun c => c == 'm' || c == 'g')) (.cat (Regex.word "++".data) Regex.versionSrc))

/-- Regex `^([^-]*-)*[g]?fortran(-?\d+(\.\d+){0,2})?$` — fourth pattern of
`match_executable_name`. -/
def Regex.gccPat4 : Regex :=
  .cat Regex.hyphenChunks
    (.cat (Regex.opt (Regex.chr 'g')) (.cat (Regex.word "fortran".data) Regex.versionSrc))

/-- The combined alternation `match_executable_name` builds from the four
patterns (`regex_match` demands a full match, so the inner anchors make the
whole an anchored union). -/
def GCC_PATTERN : Regex :=
  .alt Regex.gccPat1 (.alt Regex.gccPat2 (.alt Regex.gccPat3 Regex.gccPat4))

/-- Function `fs::path::filename` on the POSIX path model: the component after the
last separator. -/
def basename (p : String) : String :=
  String.mk ((splitCharsOn '/' p.data).getLastD [])

/-- Function `match_executable_name` of `ToolGcc.cc`: the basename fully matches the
combined pattern. -/
def match_executable_name (program : String) : Bool :=
  GCC_PATTERN.rmatch (basename program).data

/-- Function `ToolGcc::recognize` of `ToolGcc.cc`: the program path is in the
caller-supplied allow-list, or its basename matches the compiler-name
patterns. -/
def ToolGcc.recognize (paths : List String) (program : String) : Bool :=
  paths.contains program || match_executable_name program

/-- Claim-side restatement of the Compilation-Pass Classifier's
"no compilation" condition: empty sequence, or some `KIND_OF_OUTPUT_INFO`
flag, or some `PREPROCESSOR_MAKE` flag whose first argument token is `-M`,
`-MM` or `-E`. -/
def specNoCompilation (flags : List CompilerFlag) : Bool :=
  flags.isEmpty
    || flags.any (fun flag => flag.type == .KIND_OF_OUTPUT_INFO)
    || flags.any (fun flag =>
        flag.type == .PREPROCESSOR_MAKE
          && ["-M", "-MM", "-E"].contains (flag.arguments.headD ""))

/-- Claim-side restatement of the Per-Source Argument Filter: a synthetic
`-c` exactly when no `KIND_OF_OUTPUT_NO_LINKING` flag is present, followed by
the verbatim argument tokens of every flag that is not of category `LINKER`,
`PREPROCESSOR_MAKE` or `DIRECTORY_SEARCH_LINKER` and is not a `SOURCE` flag
for a different path. -/
def specFilterArguments (flags : List CompilerFlag) (source : String) : List String :=
  (if flags.any (fun flag => flag.type == .KIND_OF_OUTPUT_NO_LINKING) then [] else ["-c"])
    ++ (flags.filter (fun flag =>
          !(flag.type == .LINKER || flag.type == .PREPROCESSOR_MAKE
              || flag.type == .DIRECTORY_SEARCH_LINKER)
            && (flag.type != .SOURCE || flag.arguments.headD "" == source))).flatMap
        (fun flag => flag.arguments)

/-- Claim-side restatement of the Environment Flag Synthesizer: a `-I dir`
pair per colon-separated segment of `CPATH`, `C_INCLUDE_PATH` and
`CPLUS_INCLUDE_PATH` in that order (an empty segment becomes `.`), then
`-isystem dir` pairs for `OBJC_INCLUDE_PATH` under the same rule. -/
def specEnvFlags (environment : List (String × String)) : List String :=
  (match envLookup environment "CPATH" with
   | some value => (splitColon value).flatMap
      (fun seg => ["-I", if seg == "" then "." else seg])
   | none => []) ++
  (match envLookup environment "C_INCLUDE_PATH" with
   | some value => (splitColon value).flatMap
      (fun seg => ["-I", if seg == "" then "." else seg])
   | none => []) ++
  (match envLookup environment "CPLUS_INCLUDE_PATH" with
   | some value => (splitColon value).flatMap
      (fun seg => ["-I", if seg == "" then "." else seg])
   | none => []) ++
  (match envLookup environment "OBJC_INCLUDE_PATH" with
   | some value => (splitColon value).flatMap
      (fun seg => ["-isystem", if seg == "" then "." else seg])
   | none => [])

/-- Regex `(-\d+(\.\d+){0,2})?` — the version suffix as the claim states it, with a
mandatory hyphen before the digits. -/
def Regex.versionClaim : Regex :=
  Regex.opt (.cat (.cat (Regex.chr '-') Regex.digit.plus) Regex.dotDigitsUpTo2)

/-- Claim-side Executable Recognizer patterns: the four anchored patterns as
written in the claim, `cc|c++|cxx|CC`, `([^-]*-)*[mg]cc(-\d+(\.\d+){0,2})?`,
`([^-]*-)*[mg]\+\+(-\d+(\.\d+){0,2})?`,
`([^-]*-)*g?fortran(-\d+(\.\d+){0,2})?`. -/
def specClaimPatterns (name : String) : Bool :=
  Regex.rmatch Regex.gccPat1 name.data
    || Regex.rmatch (.cat Regex.hyphenChunks
        (.cat (.cls (fun c => c == 'm' || c == 'g'))
          (.cat (Regex.word "cc".data) Regex.versionClaim))) name.data
    || Regex.rmatch (.cat Regex.hyphenChunks
        (.cat (.cls (fun c => c == 'm' || c == 'g'))
          (.cat (Regex.word "++".data) Regex.versionClaim))) name.data
    || Regex.rmatch (.cat Regex.hyphenChunks
        (.cat (Regex.opt (Regex.chr 'g'))
          (.cat (Regex.word "fortran".data) Regex.versionClaim))) name.data

/-- Amended-claim-side Executable Recognizer patterns: the four anchored
patterns with the hyphen before the version digits optional, exactly as the
source regexes spell them, stated as a disjunction of the four matches. -/
def specAmendedPatterns (name : String) : Bool :=
  Regex.rmatch Regex.gccPat1 name.data
    || Regex.rmatch Regex.gccPat2 name.data
    || Regex.rmatch Regex.gccPat3 name.data
    || Regex.rmatch Regex.gccPat4 name.data

theorem matchEntry_some (d : FlagDef) (t : String) (rest : List String)
    (flag : CompilerFlag) (b : Bool) (h : matchEntry d t rest = some (flag, b)) :
    (b = false ∧ flag.arguments = [t]) ∨
      (∃ v rest2, rest = v :: rest2 ∧ b = true ∧ flag.arguments = [t, v]) := by
  unfold matchEntry at h
  split at h
  · split at h
    · injection h with h'
      injection h' with ha hb
      subst ha; subst hb
      exact Or.inl ⟨rfl, rfl⟩
    · split at h
      · injection h with h'
        injection h' with ha hb
        subst ha; subst hb
        exact Or.inl ⟨rfl, rfl⟩
      · split at h
        · exact absurd h (by simp)
        · split at h
          · injection h with h'
            injection h' with ha hb
            subst ha; subst hb
            exact Or.inr ⟨_, _, rfl, rfl, rfl⟩
          · exact absurd h (by simp)
  · exact absurd h (by simp)

theorem findSomeMatch_some (l : List FlagDef) (t : String) (rest : List String)
    (flag : CompilerFlag) (b : Bool)
    (h : l.findSome? (fun d => matchEntry d t rest) = some (flag, b)) :
    (b = false ∧ flag.arguments = [t]) ∨
      (∃ v rest2, rest = v :: rest2 ∧ b = true ∧ flag.arguments = [t, v]) := by
  induction l with
  | nil => exact absurd h (by simp)
  | cons d ds ih =>
    rw [List.findSome?_cons] at h
    cases hm : matchEntry d t rest with
    | none => rw [hm] at h; exact ih h
    | some val =>
      rw [hm] at h
      injection h with h'
      subst h'
      exact matchEntry_some d t rest flag b hm

theorem tryDict_some (t : String) (rest : List String) (flag : CompilerFlag) (b : Bool)
    (h : tryDict t rest = some (flag, b)) :
    (b = false ∧ flag.arguments = [t]) ∨
      (∃ v rest2, rest = v :: rest2 ∧ b = true ∧ flag.arguments = [t, v]) :=
  findSomeMatch_some FLAG_DEFINITION t rest flag b h

theorem compilations_of_pass_false (cmd : Command)
    (h : runs_compilation_pass (parseTokens cmd.arguments) = false) :
    ToolGcc.compilations cmd = [] := by
  simp [ToolGcc.compilations, h]

theorem compilations_eq_map (cmd : Command)
    (h : runs_compilation_pass (parseTokens cmd.arguments) = true) :
    ToolGcc.compilations cmd
      = (source_files (parseTokens cmd.arguments)).map (fun source =>
          { file := joinPath cmd.working_dir source
            directory := cmd.working_dir
            output := (output_files (parseTokens cmd.arguments)).map (joinPath cmd.working_dir)
            arguments := (cmd.program :: filter_arguments (parseTokens cmd.arguments) source)
                ++ flags_from_environment cmd.environment }) := by
  unfold ToolGcc.compilations
  simp only [h, Bool.not_true, Bool.false_eq_true, if_false, ite_false]
  split
  · rename_i hempty
    rw [List.isEmpty_iff.mp hempty]
    rfl
  · rfl

/-- C1: the Compilation-Pass Classifier declares no compilation exactly on
the spec's three conditions, commands failing the test yield zero Entries,
`-M -c a.c` yields zero Entries, and `-MD -c a.c` yields one. -/
theorem claim_c1 :
    (∀ flags : List CompilerFlag,
        runs_compilation_pass flags = false ↔ specNoCompilation flags = true)
    ∧ (∀ cmd : Command,
        runs_compilation_pass (parseTokens cmd.arguments) = false →
          ToolGcc.compilations cmd = [])
    ∧ ToolGcc.compilations ⟨"gcc", ["-M", "-c", "a.c"], "/work", []⟩ = []
    ∧ (ToolGcc.compilations ⟨"gcc", ["-MD", "-c", "a.c"], "/work", []⟩).length = 1 := by
  refine ⟨fun flags => ?_, fun cmd h => compilations_of_pass_false cmd h, by decide, by decide⟩
  cases h1 : flags.isEmpty <;>
    cases h2 : flags.any (fun flag => flag.type == CompilerFlagType.KIND_OF_OUTPUT_INFO) <;>
      cases h3 : flags.any (fun flag => flag.type == CompilerFlagType.PREPROCESSOR_MAKE
          && NO_COMPILATION_FLAG.contains (flag.arguments.headD "")) <;>
        simp_all [runs_compilation_pass, specNoCompilation, NO_COMPILATION_FLAG]

theorem claim_c1_witness :
    ToolGcc.compilations ⟨"gcc", ["--version"], "/work", []⟩ = [] :=
  claim_c1.2.1 ⟨"gcc", ["--version"], "/work", []⟩ (by decide)

/-- C2 (code behavior at the failing input): `gcc -E a.c` parses `-E` as
`KIND_OF_OUTPUT_NO_LINKING`, is classified as running a compilation pass, and
yields one Entry — although the code's own `NO_COMPILATION_FLAG` list names
`-E`, the list is only consulted for `PREPROCESSOR_MAKE` flags, so that entry
is unreachable. -/
theorem claim_c2_code_behavior :
    (parseTokens ["-E", "a.c"]).map (fun flag => flag.type)
        = [.KIND_OF_OUTPUT_NO_LINKING, .SOURCE]
    ∧ runs_compilation_pass (parseTokens ["-E", "a.c"]) = true
    ∧ (ToolGcc.compilations ⟨"gcc", ["-E", "a.c"], "/work", []⟩).length = 1
    ∧ NO_COMPILATION_FLAG.contains "-E" = true := by decide

/-- C3: `gcc -Ia -Ib -c x.c y.c -o out` yields exactly the two Entries the
spec describes — both `-I` flags kept, the other source dropped, output and
file made absolute against the working directory. -/
theorem claim_c3 :
    ToolGcc.compilations ⟨"gcc", ["-Ia", "-Ib", "-c", "x.c", "y.c", "-o", "out"], "/work", []⟩
      = [⟨"/work/x.c", "/work", some "/work/out", ["gcc", "-Ia", "-Ib", "-c", "x.c", "-o", "out"]⟩,
         ⟨"/work/y.c", "/work", some "/work/out", ["gcc", "-Ia", "-Ib", "-c", "y.c", "-o", "out"]⟩] := by
  decide

theorem keep_pred_eq (s : String) (flag : CompilerFlag) :
    (!type_filter_out flag.type && source_filter s flag)
      = (!(flag.type == .LINKER || flag.type == .PREPROCESSOR_MAKE
            || flag.type == .DIRECTORY_SEARCH_LINKER)
          && (flag.type != .SOURCE || flag.arguments.headD "" == s)) := by
  cases h : flag.type <;> simp [type_filter_out, source_filter, source_file, h]

theorem foldl_append_filter (p : CompilerFlag → Bool) :
    ∀ (l : List CompilerFlag) (init : List String),
      l.foldl (fun acc flag => if p flag then acc ++ flag.arguments else acc) init
        = init ++ (l.filter p).flatMap (fun flag => flag.arguments) := by
  intro l
  induction l with
  | nil => intro init; simp
  | cons f fs ih =>
    intro init
    cases hp : p f <;> simp [hp, ih, List.filter_cons]

/-- C4: the Per-Source Argument Filter equals its spec description — a
synthetic `-c` exactly when no no-linking flag is present, then the verbatim
argument tokens of every flag not of a dropped category and not a `SOURCE`
flag for another path, in original order. -/
theorem claim_c4 : ∀ (flags : List CompilerFlag) (source : String),
    filter_arguments flags source = specFilterArguments flags source := by
  intro flags source
  unfold filter_arguments specFilterArguments
  rw [foldl_append_filter]
  rw [List.filter_congr (fun flag _ => keep_pred_eq source flag)]

/-- C5: the Flag Stream Parser consumes each raw token exactly once (the
argument lists of the classified flags partition the input length) and never
produces an empty argument list; it is total on all token sequences. -/
theorem claim_c5 : ∀ ts : List String,
    ((parseTokens ts).map (fun flag => flag.arguments.length)).sum = ts.length
    ∧ ∀ flag ∈ parseTokens ts, flag.arguments ≠ [] := by
  intro ts
  induction ts using parseTokens.induct with
  | case1 => simp [parseTokens]
  | case2 head flag h =>
    rcases tryDict_some _ _ _ _ h with ⟨hb, _⟩ | ⟨v, rest2', hr, _, _⟩
    · exact absurd hb (by simp)
    · exact absurd hr (by simp)
  | case3 head flag head1 rest2 h ih =>
    rcases tryDict_some _ _ _ _ h with ⟨hb, _⟩ | ⟨v, rest2', hr, _, hargs⟩
    · exact absurd hb (by simp)
    · injection hr with hv hr2
      subst hv
      constructor
      · simp only [parseTokens, h]
        simp [hargs, ih.1]
        omega
      · intro f hf
        simp only [parseTokens, h] at hf
        rcases List.mem_cons.mp hf with rfl | hf'
        · rw [hargs]; simp
        · exact ih.2 f hf'
  | case4 head rest flag b h hb ih =>
    rcases tryDict_some _ _ _ _ h with ⟨hbf, hargs⟩ | ⟨v, rest2', hr, hbt, _⟩
    · subst hbf
      constructor
      · simp only [parseTokens, h]
        simp [hargs, ih.1]
        omega
      · intro f hf
        simp only [parseTokens, h] at hf
        rcases List.mem_cons.mp hf with rfl | hf'
        · rw [hargs]; simp
        · exact ih.2 f hf'
    · exact absurd hbt hb
  | case5 head rest h ih =>
    constructor
    · simp only [parseTokens, h]
      simp [ih.1]
      omega
    · intro f hf
      simp only [parseTokens, h] at hf
      rcases List.mem_cons.mp hf with rfl | hf'
      · simp
      · exact ih.2 f hf'

theorem claim_c5_witness :
    ((parseTokens ["-I", "dir", "x.c"]).map (fun flag => flag.arguments.length)).sum = 3
    ∧ (⟨["-I", "dir"], .DIRECTORY_SEARCH⟩ : CompilerFlag).arguments ≠ [] :=
  ⟨(claim_c5 ["-I", "dir", "x.c"]).1,
   (claim_c5 ["-I", "dir", "x.c"]).2 ⟨["-I", "dir"], .DIRECTORY_SEARCH⟩ (by decide)⟩

/-- C6: the extracted output path is the last argument token of the first
`KIND_OF_OUTPUT_OUTPUT` flag in sequence order, and absent when no such flag
exists. -/
theorem claim_c6 : ∀ flags : List CompilerFlag,
    output_files flags
        = (flags.find? (fun flag => flag.type == .KIND_OF_OUTPUT_OUTPUT)).map
            (fun flag => flag.arguments.getLastD "")
    ∧ ((∀ flag ∈ flags, flag.type ≠ .KIND_OF_OUTPUT_OUTPUT) → output_files flags = none) := by
  intro flags
  have hfind : output_files flags
      = (flags.find? (fun flag => flag.type == .KIND_OF_OUTPUT_OUTPUT)).map
          (fun flag => flag.arguments.getLastD "") := by
    induction flags with
    | nil => simp [output_files]
    | cons f fs ih =>
      by_cases h : f.type = .KIND_OF_OUTPUT_OUTPUT <;>
        simp [output_files, List.findSome?_cons, output_file, List.find?_cons, h]
      simpa [output_files] using ih
  refine ⟨hfind, fun hall => ?_⟩
  rw [hfind, List.find?_eq_none.mpr (fun x hx => by simpa using hall x hx)]
  rfl

theorem claim_c6_witness :
    output_files [⟨["-c"], .KIND_OF_OUTPUT_NO_LINKING⟩] = none :=
  (claim_c6 [⟨["-c"], .KIND_OF_OUTPUT_NO_LINKING⟩]).2 (by decide)

/-- C7: the Environment Flag Synthesizer produces exactly the spec's `-I` and
`-isystem` pairs in variable-check then segment order; its tokens sit at the
end of every Entry's argument list; changing the environment never affects
which files compile or their outputs; and `CPATH=/usr/x:/usr/y` appends
`-I /usr/x -I /usr/y` after all original flags. -/
theorem claim_c7 :
    (∀ environment, flags_from_environment environment = specEnvFlags environment)
    ∧ (∀ cmd : Command, ∀ e ∈ ToolGcc.compilations cmd,
        ∃ pre, e.arguments = pre ++ flags_from_environment cmd.environment)
    ∧ (∀ (cmd : Command) (env2 : List (String × String)),
        (ToolGcc.compilations { cmd with environment := env2 }).map
            (fun e => (e.file, e.directory, e.output))
          = (ToolGcc.compilations cmd).map (fun e => (e.file, e.directory, e.output)))
    ∧ (ToolGcc.compilations ⟨"gcc", ["-c", "a.c"], "/work", [("CPATH", "/usr/x:/usr/y")]⟩).map
        (fun e => e.arguments)
      = [["gcc", "-c", "a.c", "-I", "/usr/x", "-I", "/usr/y"]] := by
  refine ⟨fun environment => ?_, fun cmd e he => ?_, fun cmd env2 => ?_, by decide⟩
  · simp [flags_from_environment, specEnvFlags, envInserter]
  · cases hp : runs_compilation_pass (parseTokens cmd.arguments) with
    | false =>
      rw [compilations_of_pass_false cmd hp] at he
      exact absurd he (by simp)
    | true =>
      rw [compilations_eq_map cmd hp] at he
      obtain ⟨source, hs, rfl⟩ := List.mem_map.mp he
      exact ⟨_, rfl⟩
  · cases hp : runs_compilation_pass (parseTokens cmd.arguments) with
    | false =>
      rw [compilations_of_pass_false cmd hp,
        compilations_of_pass_false { cmd with environment := env2 } hp]
    | true =>
      rw [compilations_eq_map cmd hp,
        compilations_eq_map { cmd with environment := env2 } hp]
      simp [List.map_map]

theorem claim_c7_witness :
    ∃ pre, (["gcc", "-c", "a.c"] : List String) = pre ++ flags_from_environment [] :=
  claim_c7.2.1 ⟨"gcc", ["-c", "a.c"], "/work", []⟩
    ⟨"/work/a.c", "/work", none, ["gcc", "-c", "a.c"]⟩ (by decide)

theorem Regex.rmatch_alt (a b : Regex) : ∀ s : List Char,
    (Regex.alt a b).rmatch s = (a.rmatch s || b.rmatch s) := by
  intro s
  induction s generalizing a b with
  | nil => simp [Regex.rmatch, Regex.nullable]
  | cons c s ih => simpa [Regex.rmatch, Regex.deriv] using ih (a.deriv c) (b.deriv c)

/-- C8 (counterexample): the code accepts the basename `gcc9` although it is
neither in the allow-list nor matched by any of the claim's four patterns —
the source regexes make the hyphen before the version digits optional, the
claim's patterns demand it. -/
theorem claim_c8_counterexample :
    ToolGcc.recognize [] "gcc9" = true
    ∧ ([] : List String).contains "gcc9" = false
    ∧ specClaimPatterns (basename "gcc9") = false := by decide

/-- C8 (amended): the Executable Recognizer accepts a program path exactly
when it is in the caller-supplied allow-list or its basename fully matches
one of the four anchored patterns with an optional hyphen before the version
digits (`cc|c++|cxx|CC`, `([^-]*-)*[mg]cc(-?\d+(\.\d+){0,2})?`,
`([^-]*-)*[mg]\+\+(-?\d+(\.\d+){0,2})?`,
`([^-]*-)*g?fortran(-?\d+(\.\d+){0,2})?`); in particular it accepts
`/usr/bin/x86_64-linux-gnu-g++-11` and rejects `/usr/bin/ld`. -/
theorem claim_c8_amended :
    (∀ (paths : List String) (program : String),
        ToolGcc.recognize paths program
          = (paths.contains program || specAmendedPatterns (basename program)))
    ∧ ToolGcc.recognize [] "/usr/bin/x86_64-linux-gnu-g++-11" = true
    ∧ ToolGcc.recognize [] "/usr/bin/ld" = false := by
  refine ⟨fun paths program => ?_, by decide, by decide⟩
  unfold ToolGcc.recognize match_executable_name GCC_PATTERN specAmendedPatterns
  rw [Regex.rmatch_alt, Regex.rmatch_alt, Regex.rmatch_alt]
  simp [Bool.or_assoc]

theorem isAbsolutePath_join (dir p : String) (h : isAbsolutePath dir = true) :
    isAbsolutePath (joinPath dir p) = true := by
  unfold joinPath
  split
  · assumption
  · unfold isAbsolutePath at h ⊢
    rw [String.data_append, String.data_append]
    cases hd : dir.data with
    | nil => simp [hd] at h
    | cons c cs =>
      rw [hd] at h
      simp_all

/-- C9: when the Command's working directory is absolute, every emitted
Entry has an absolute file, directory and output (relative source and output
paths are resolved by joining with the working directory), and the Entry's
directory is the working directory itself. -/
theorem claim_c9 : ∀ cmd : Command, isAbsolutePath cmd.working_dir = true →
    ∀ e ∈ ToolGcc.compilations cmd,
      isAbsolutePath e.file = true
      ∧ isAbsolutePath e.directory = true
      ∧ (∀ o, e.output = some o → isAbsolutePath o = true)
      ∧ e.directory = cmd.working_dir
      ∧ (∃ s ∈ source_files (parseTokens cmd.arguments), e.file = joinPath cmd.working_dir s)
      ∧ e.output = (output_files (parseTokens cmd.arguments)).map (joinPath cmd.working_dir) := by
  intro cmd habs e he
  cases hp : runs_compilation_pass (parseTokens cmd.arguments) with
  | false =>
    rw [compilations_of_pass_false cmd hp] at he
    exact absurd he (by simp)
  | true =>
    rw [compilations_eq_map cmd hp] at he
    obtain ⟨source, hs, rfl⟩ := List.mem_map.mp he
    refine ⟨isAbsolutePath_join _ _ habs, habs, ?_, rfl, ⟨source, hs, rfl⟩, rfl⟩
    intro o ho
    cases hout : output_files (parseTokens cmd.arguments) with
    | none => simp [hout] at ho
    | some out =>
      simp only [hout, Option.map_some] at ho
      injection ho with ho'
      rw [← ho']
      exact isAbsolutePath_join _ _ habs

theorem claim_c9_witness :
    isAbsolutePath (Entry.file ⟨"/work/a.c", "/work", none, ["gcc", "-c", "a.c"]⟩) = true
    ∧ isAbsolutePath (Entry.directory ⟨"/work/a.c", "/work", none, ["gcc", "-c", "a.c"]⟩) = true
    ∧ (∀ o, (Entry.output ⟨"/work/a.c", "/work", none, ["gcc", "-c", "a.c"]⟩) = some o →
        isAbsolutePath o = true)
    ∧ Entry.directory ⟨"/work/a.c", "/work", none, ["gcc", "-c", "a.c"]⟩ = "/work"
    ∧ (∃ s ∈ source_files (parseTokens ["-c", "a.c"]),
        Entry.file ⟨"/work/a.c", "/work", none, ["gcc", "-c", "a.c"]⟩ = joinPath "/work" s)
    ∧ Entry.output ⟨"/work/a.c", "/work", none, ["gcc", "-c", "a.c"]⟩
        = (output_files (parseTokens ["-c", "a.c"])).map (joinPath "/work") :=
  claim_c9 ⟨"gcc", ["-c", "a.c"], "/work", []⟩ (by decide)
    ⟨"/work/a.c", "/work", none, ["gcc", "-c", "a.c"]⟩ (by decide)

theorem source_files_eq_filter (flags : List CompilerFlag) :
    source_files flags
      = (flags.filter (fun flag => flag.type == .SOURCE)).map
          (fun flag => flag.arguments.headD "") := by
  induction flags with
  | nil => simp [source_files]
  | cons f fs ih =>
    by_cases h : f.type = .SOURCE <;>
      simp_all [source_files, List.filterMap_cons, source_file, List.filter_cons]

/-- C10: a command that passes the compilation-pass test emits one Entry per
`SOURCE`-flag occurrence, in order, each Entry's file being that occurrence's
path joined with the working directory — duplicate source tokens are neither
merged nor deduplicated, as `gcc -c a.c a.c` (two Entries for `a.c`) shows. -/
theorem claim_c10 :
    (∀ cmd : Command, runs_compilation_pass (parseTokens cmd.arguments) = true →
        (ToolGcc.compilations cmd).map (fun e => e.file)
          = (source_files (parseTokens cmd.arguments)).map (joinPath cmd.working_dir))
    ∧ (∀ cmd : Command,
        source_files (parseTokens cmd.arguments)
          = ((parseTokens cmd.arguments).filter (fun flag => flag.type == .SOURCE)).map
              (fun flag => flag.arguments.headD ""))
    ∧ (ToolGcc.compilations ⟨"gcc", ["-c", "a.c", "a.c"], "/work", []⟩).length = 2
    ∧ (ToolGcc.compilations ⟨"gcc", ["-c", "a.c", "a.c"], "/work", []⟩).map (fun e => e.file)
        = ["/work/a.c", "/work/a.c"] := by
  refine ⟨fun cmd hp => ?_, fun cmd => source_files_eq_filter _, by decide, by decide⟩
  rw [compilations_eq_map cmd hp]
  simp [List.map_map]

theorem claim_c10_witness :
    (ToolGcc.compilations ⟨"gcc", ["-c", "x.c", "y.c"], "/work", []⟩).map (fun e => e.file)
      = (source_files (parseTokens ["-c", "x.c", "y.c"])).map (joinPath "/work") :=
  claim_c10.1 ⟨"gcc", ["-c", "x.c", "y.c"], "/work", []⟩ (by decide)
